import Mathlib

/-!
Verification of the accounts app (registration, login, profile validation)
of the user-identity service.  The Python source under `src/accounts/` is
shallowly embedded: Python strings become `String`, the Django ORM rows
become records in an explicit `Store`, serializer validation becomes
`Except`-valued functions, and the view functions thread the store
explicitly.  Failures of the storage layer are injected through an explicit
`CreateFail` parameter so that the transactional behaviour of the
registration view can be stated.
-/

set_option autoImplicit false

namespace Accounts

/-! ## Python string primitives

`str.strip`, `str.lower`, the regex character classes `\d` and `\s`, and
`re.sub(r'[^\d]', '', s)` used by `serializers.py`. -/

/-- Python's whitespace set for `str.strip` and the regex class `\s`. -/
def pyIsSpace (c : Char) : Bool :=
  c = ' ' || c = '\t' || c = '\n' || c = '\r' || c = '\x0b' || c = '\x0c'

/-- `str.strip()`: drop whitespace from both ends. -/
def pyStrip (s : String) : String :=
  ⟨((s.data.dropWhile pyIsSpace).reverse.dropWhile pyIsSpace).reverse⟩

/-- `str.lower()` (ASCII model). -/
def pyLower (s : String) : String :=
  ⟨s.data.map Char.toLower⟩

/-- The regex class `\d` (ASCII model). -/
def pyDigit (c : Char) : Bool := c.isDigit

/-- `re.sub(r'[^\d]', '', s)`: keep only the digits. -/
def digitsOnly (s : String) : String :=
  ⟨s.data.filter pyDigit⟩

/-- One character of the phone regex class `[\d\s\-\(\)\+]`
(`ProfileSerializer.validate_phone_number`). -/
def phoneCharOk (c : Char) : Bool :=
  pyDigit c || pyIsSpace c || c = '-' || c = '(' || c = ')' || c = '+'

/-- `re.match(r'^[\d\s\-\(\)\+]+$', s)`: nonempty and every character in
the class (the stripped string ends in no newline, so `$` is plain
end-of-string here). -/
def phoneRegexMatch (s : String) : Bool :=
  s != "" && s.data.all phoneCharOk

/-- One character of the username regex class `[a-zA-Z0-9_]`
(`UserSerializer.validate_username`). -/
def usernameCharOk (c : Char) : Bool :=
  c.isAlpha || c.isDigit || c = '_'

/-- `re.match(r'^[a-zA-Z0-9_]+$', s)`. -/
def usernameRegexMatch (s : String) : Bool :=
  s != "" && s.data.all usernameCharOk

/-! ## Data model (`models.py`)

`User` and `Profile` rows.  The opaque password hash is abstracted to the
plaintext it was derived from: `set_password`/`check_password` become
storage and comparison of this credential, which is faithful for every
property in scope (none concerns the hash algorithm itself). -/

/-- A `User` row (`models.User`). -/
structure User where
  id : Nat
  email : String
  username : String
  password : String
  is_active : Bool
  is_staff : Bool
  is_verified : Bool
deriving Repr, DecidableEq

/-- A `Profile` row (`models.Profile`); `date_of_birth` is optional and
carried nowhere that matters to the claims, so it is omitted. -/
structure Profile where
  user_id : Nat
  phone_number : String
  role : String
deriving Repr, DecidableEq

/-- The durable store: the `User` and `Profile` tables. -/
structure Store where
  users : List User
  profiles : List Profile
deriving Repr, DecidableEq

/-- The empty database. -/
def emptyStore : Store := { users := [], profiles := [] }

/-! ## Serializer plumbing

Validation results.  A DRF field or `validate_<field>` method either
returns the cleaned value or raises `ValidationError(message)`; per-field
errors are collected into a map keyed by field name, nested serializer
errors appearing as a nested map under the field's key. -/

/-- Map over the error of an `Except` (DRF wrapping a raised message). -/
def exMapErr {e d a : Type} (f : e → d) : Except e a → Except d a
  | Except.ok x => Except.ok x
  | Except.error err => Except.error (f err)

/-- Error detail for one key of a serializer error map: either a list of
messages, or (for a nested serializer) a nested field-error map. -/
inductive ErrDetail where
  | msgs (m : List String)
  | nested (m : List (String × List String))
deriving Repr, DecidableEq

/-- A serializer error map, keyed by field name (`serializer.errors`). -/
abbrev ErrorMap := List (String × ErrDetail)

/-- Collect the error of one field, keyed by its name, for the aggregated
map built by `to_internal_value`. -/
def errKey {a : Type} (k : String) : Except ErrDetail a → ErrorMap
  | Except.error dtl => [(k, dtl)]
  | Except.ok _ => []

/-- Same, for the flat error map of the nested `ProfileSerializer`. -/
def errKeyFlat {a : Type} (k : String) : Except (List String) a → List (String × List String)
  | Except.error m => [(k, m)]
  | Except.ok _ => []

/-! ## ProfileSerializer (`serializers.py` lines 16-80)

Field pipeline of a DRF `ModelSerializer`: each field first runs its own
`run_validation` (for `phone_number` a `CharField` built from the model
field, hence `trim_whitespace=True` and `max_length=15`; for `role` a
`ChoiceField` built from `Profile.ROLE_CHOICES`), then the serializer's
`validate_<field>` method. -/

/-- `ProfileSerializer.validate_phone_number` (lines 27-60): reject empty,
strip, match `^[\d\s\-\(\)\+]+$`, require at least 10 digits, reject a
phone number some stored profile already has (exact string), and return
the stripped value. -/
def validate_phone_number (store : Store) (value : String) : Except String String :=
  -- the Python local `cleaned_number` is `pyStrip value`, written out below
  if value = "" then Except.error "Phone number is required"
  else if !(phoneRegexMatch (pyStrip value)) then
    Except.error "Invalid phone number format. Use only digits, spaces, dashes, parentheses, and plus signs."
  else if (digitsOnly (pyStrip value)).length < 10 then
    Except.error "Phone number must contain at least 10 digits."
  else if store.profiles.any (fun p => p.phone_number == pyStrip value) then
    Except.error "This phone number is already registered."
  else Except.ok (pyStrip value)

/-- `ProfileSerializer.validate_role` (lines 62-80). -/
def validate_role (value : String) : Except String String :=
  if value = "student" || value = "vendor" || value = "admin" then Except.ok value
  else Except.error "Invalid role. Must be one of: student, vendor, admin"

/-- The full DRF pipeline of the `phone_number` field: the `CharField`
generated from `Profile.phone_number` (`trim_whitespace=True` by default,
`max_length=15` inherited from the model column, `allow_blank=False`),
then `validate_phone_number`. -/
def phone_field_run (store : Store) (raw : String) : Except String String :=
  if pyStrip raw = "" then Except.error "This field may not be blank."
  else if 15 < (pyStrip raw).length then
    Except.error "Ensure this field has no more than 15 characters."
  else validate_phone_number store (pyStrip raw)

/-- The full DRF pipeline of the `role` field: the `ChoiceField` generated
from `Profile.ROLE_CHOICES` checks membership, then `validate_role`. -/
def role_field_run (raw : String) : Except String String :=
  if raw = "student" || raw = "vendor" || raw = "admin" then validate_role raw
  else Except.error "is not a valid choice."

/-- Input to the nested `ProfileSerializer`; a `none` field is absent from
the request body.  `date_of_birth` is optional, used by no claim, and
omitted. -/
structure ProfilePayload where
  phone_number : Option String
  role : Option String
deriving Repr, DecidableEq

/-- The profile part of `validated_data`.  `role` stays `none` when the
payload omitted it; `Profile.objects.create` then uses the model default
`'student'`. -/
structure ValidatedProfile where
  phone_number : String
  role : Option String
deriving Repr, DecidableEq

/-- `ProfileSerializer.to_internal_value`: run every field, aggregating
all field errors into one flat map (`phone_number` is required; `role`
has a model default, hence `required=False`). -/
def profile_to_internal (store : Store) (p : ProfilePayload) :
    Except (List (String × List String)) ValidatedProfile :=
  let phoneRes : Except (List String) String :=
    match p.phone_number with
    | none => Except.error ["This field is required."]
    | some raw => exMapErr (fun m => [m]) (phone_field_run store raw)
  let roleRes : Except (List String) (Option String) :=
    match p.role with
    | none => Except.ok none
    | some raw => exMapErr (fun m => [m]) (Except.map some (role_field_run raw))
  match phoneRes, roleRes with
  | Except.ok ph, Except.ok ro => Except.ok { phone_number := ph, role := ro }
  | _, _ => Except.error (errKeyFlat "phone_number" phoneRes ++ errKeyFlat "role" roleRes)

/-! ## UserSerializer (`serializers.py` lines 83-222)

Writable fields per `Meta` (lines 103-109): `email`, `username`,
`password`, `password_confirm`, `is_active`, `profile`; `id`,
`date_joined` and `is_verified` are read-only and never deserialized.
`views.py` imports this registration serializer under the name
`RegisterSerializer`; the claims identify it with `UserSerializer`, whose
definition these functions embed. -/

/-- `UserSerializer.validate_email` (lines 111-130): lowercase and strip,
then reject an email some stored user already has. -/
def validate_email (store : Store) (value : String) : Except String String :=
  -- the Python local `email` is `pyStrip (pyLower value)`, written out below
  if store.users.any (fun u => u.email == pyStrip (pyLower value)) then
    Except.error "An account with this email already exists."
  else Except.ok (pyStrip (pyLower value))

/-- `UserSerializer.validate_username` (lines 132-158): strip, length at
least 3, charset `[a-zA-Z0-9_]`, not already taken. -/
def validate_username (store : Store) (value : String) : Except String String :=
  -- the Python local `username` is `pyStrip value`, written out below
  if (pyStrip value).length < 3 then
    Except.error "Username must be at least 3 characters long."
  else if !(usernameRegexMatch (pyStrip value)) then
    Except.error "Username can only contain letters, numbers, and underscores."
  else if store.users.any (fun u => u.username == pyStrip value) then
    Except.error "This username is already taken."
  else Except.ok (pyStrip value)

/-- Django's `EmailValidator`, run by the `EmailField` (external library
code, abstracted to the necessary conditions the claims use): nonempty,
contains an `@`, and holds no whitespace. -/
def email_format_ok (s : String) : Bool :=
  s != "" && s.data.any (fun c => c = '@') && s.data.all (fun c => !(pyIsSpace c))

/-- The `email` field pipeline: `EmailField` trims, rejects blank and
malformed input, then `validate_email` runs. -/
def email_field_run (store : Store) (raw : String) : Except String String :=
  if pyStrip raw = "" then Except.error "This field may not be blank."
  else if !(email_format_ok (pyStrip raw)) then Except.error "Enter a valid email address."
  else validate_email store (pyStrip raw)

/-- The `username` field pipeline: a `CharField` built from the model
field (`max_length=150`, trims, rejects blank), then `validate_username`. -/
def username_field_run (store : Store) (raw : String) : Except String String :=
  if pyStrip raw = "" then Except.error "This field may not be blank."
  else if 150 < (pyStrip raw).length then
    Except.error "Ensure this field has no more than 150 characters."
  else validate_username store (pyStrip raw)

/-- The declared `password` field (lines 92-96): `CharField` with
`min_length=8` (trims, rejects blank). -/
def password_field_run (raw : String) : Except String String :=
  if pyStrip raw = "" then Except.error "This field may not be blank."
  else if (pyStrip raw).length < 8 then
    Except.error "Ensure this field has at least 8 characters."
  else Except.ok (pyStrip raw)

/-- The declared `password_confirm` field (lines 97-101): plain
`CharField`, `required=False`. -/
def password_confirm_field_run (raw : String) : Except String String :=
  if pyStrip raw = "" then Except.error "This field may not be blank."
  else Except.ok (pyStrip raw)

/-- A registration request body.  A `none` field is absent.  The payload
may carry `is_verified`: the serializer never reads it (read-only field),
which the embedding makes explicit by ignoring it below. -/
structure RegPayload where
  email : Option String
  username : Option String
  password : Option String
  password_confirm : Option String
  is_active : Option Bool
  is_verified : Option Bool
  profile : Option ProfilePayload
deriving Repr, DecidableEq

/-- `validated_data` of the registration serializer. -/
structure ValidatedReg where
  email : String
  username : String
  password : String
  password_confirm : Option String
  is_active : Option Bool
  profile : ValidatedProfile
deriving Repr, DecidableEq

/-- `UserSerializer.to_internal_value` (DRF): run every writable field's
pipeline, aggregating all field errors found into one map keyed by field
name, the nested profile errors under the key `profile`.  Read-only
fields (`id`, `date_joined`, `is_verified`) are skipped, so an
`is_verified` value in the payload is dropped here. -/
def user_to_internal (store : Store) (p : RegPayload) : Except ErrorMap ValidatedReg :=
  let emailRes : Except ErrDetail String :=
    match p.email with
    | none => Except.error (ErrDetail.msgs ["This field is required."])
    | some raw => exMapErr (fun m => ErrDetail.msgs [m]) (email_field_run store raw)
  let usernameRes : Except ErrDetail String :=
    match p.username with
    | none => Except.error (ErrDetail.msgs ["This field is required."])
    | some raw => exMapErr (fun m => ErrDetail.msgs [m]) (username_field_run store raw)
  let passwordRes : Except ErrDetail String :=
    match p.password with
    | none => Except.error (ErrDetail.msgs ["This field is required."])
    | some raw => exMapErr (fun m => ErrDetail.msgs [m]) (password_field_run raw)
  let confirmRes : Except ErrDetail (Option String) :=
    match p.password_confirm with
    | none => Except.ok none
    | some raw => exMapErr (fun m => ErrDetail.msgs [m])
        (Except.map some (password_confirm_field_run raw))
  let profileRes : Except ErrDetail ValidatedProfile :=
    match p.profile with
    | none => Except.error (ErrDetail.msgs ["This field is required."])
    | some pp => exMapErr ErrDetail.nested (profile_to_internal store pp)
  match emailRes, usernameRes, passwordRes, confirmRes, profileRes with
  | Except.ok e, Except.ok u, Except.ok pw, Except.ok pc, Except.ok pr =>
      Except.ok { email := e, username := u, password := pw,
                  password_confirm := pc, is_active := p.is_active, profile := pr }
  | _, _, _, _, _ =>
      Except.error (errKey "email" emailRes ++ errKey "username" usernameRes ++
        errKey "password" passwordRes ++ errKey "password_confirm" confirmRes ++
        errKey "profile" profileRes)

/-- `UserSerializer.validate` (lines 160-188): the object-level check,
run by DRF only after every field pipeline succeeded.  Requires
`password_confirm`, requires it to equal `password`, and pops it from
the validated data. -/
def user_validate (v : ValidatedReg) : Except ErrorMap ValidatedReg :=
  match v.password_confirm with
  | none => Except.error [("password_confirm", ErrDetail.msgs ["You must confirm your password."])]
  | some pc =>
      if v.password != pc then
        Except.error [("password_confirm", ErrDetail.msgs ["Passwords do not match."])]
      else Except.ok { v with password_confirm := none }

/-- `serializer.is_valid()` for the registration serializer: DRF's
`run_validation` = `to_internal_value` (all field errors aggregated),
then — only when it produced no error — the object-level `validate`. -/
def user_run_validation (store : Store) (p : RegPayload) : Except ErrorMap ValidatedReg :=
  match user_to_internal store p with
  | Except.error m => Except.error m
  | Except.ok v => user_validate v

/-! ## Creation (`models.py` lines 23-49, `views.py` lines 21-85)

The storage layer may raise at any step; `CreateFail` injects those
failures so the transactional behaviour of the register view and the
non-transactional `UserSerializer.create` can both be stated. -/

/-- Which storage/library call inside the creation block raises, if any. -/
inductive CreateFail where
  | noFail
  | atCreateUser
  | atCreateProfile
  | atTokens
deriving Repr, DecidableEq

/-- Fresh surrogate primary key. -/
def freshId (store : Store) : Nat := store.users.length + 1

/-- `UserManager.create_user` (`models.py` lines 23-49) applied to the
serializer's `validated_data`: build the row from the validated fields
plus any extra fields the payload carried (`is_active` when supplied,
the model defaults `is_active=True`, `is_staff=False`,
`is_verified=False` otherwise; the validated email is already
lowercased, so `normalize_email` changes nothing), and save it. -/
def create_user (store : Store) (v : ValidatedReg) : User × Store :=
  let u : User :=
    { id := freshId store
      email := v.email
      username := v.username
      password := v.password
      is_active := v.is_active.getD true
      is_staff := false
      is_verified := false }
  (u, { store with users := store.users ++ [u] })

/-- `Profile.objects.create(user=user, **profile_data)` — the `role`
column default `'student'` applies when the payload omitted it. -/
def profile_create (store : Store) (uid : Nat) (vp : ValidatedProfile) : Profile × Store :=
  let pr : Profile :=
    { user_id := uid
      phone_number := vp.phone_number
      role := vp.role.getD "student" }
  (pr, { store with profiles := store.profiles ++ [pr] })

/-- `user.delete()`: remove the account row; the `CASCADE` on
`Profile.user` drops its profile with it. -/
def delete_user (store : Store) (uid : Nat) : Store :=
  { users := store.users.filter (fun u => u.id != uid)
    profiles := store.profiles.filter (fun p => p.user_id != uid) }

/-- Outcome of the register view. -/
inductive RegResult where
  | created (u : User) (p : Profile)
  | validationFailed (error : String) (details : ErrorMap)
  | registrationFailed (error : String) (detail : String)
deriving Repr, DecidableEq

/-- The body of the `with transaction.atomic():` block in
`views.register` (lines 56-74): create the user, create the profile,
generate the tokens; an injected failure raises out of the block. -/
def register_block (store : Store) (v : ValidatedReg) (fail : CreateFail) :
    Except String (RegResult × Store) :=
  if fail = CreateFail.atCreateUser then Except.error "create_user raised"
  else
    let us := create_user store v
    if fail = CreateFail.atCreateProfile then Except.error "Profile.objects.create raised"
    else
      let ps := profile_create us.2 us.1.id v.profile
      if fail = CreateFail.atTokens then Except.error "RefreshToken.for_user raised"
      else Except.ok (RegResult.created us.1 ps.1, ps.2)

/-- `views.register` (lines 21-85): validate; on field errors return the
400 response with the aggregated details and touch nothing; otherwise run
the creation block inside `transaction.atomic()` — an exception anywhere
in the block rolls the transaction back, leaving the store as it was, and
the surrounding `except` turns it into the 400 "Registration failed"
response. -/
def register (store : Store) (payload : RegPayload) (fail : CreateFail) :
    RegResult × Store :=
  match user_run_validation store payload with
  | Except.error m => (RegResult.validationFailed "Validation failed" m, store)
  | Except.ok v =>
      match register_block store v fail with
      | Except.error e => (RegResult.registrationFailed "Registration failed" e, store)
      | Except.ok r => r

/-! ## `UserSerializer.create` (`serializers.py` lines 190-222)

This method creates the user and the profile with **no** transaction and
cleans up by hand in an `except` block that begins `if user:`.  The
Python local `user` is only assigned inside the `try`, so the embedding
carries it as an `Option` that starts unassigned; evaluating an
unassigned local raises `UnboundLocalError`. -/

/-- An exception escaping `UserSerializer.create`. -/
inductive PyError where
  | validationError (msg : String)
  | unboundLocalError (name : String)
deriving Repr, DecidableEq

/-- `UserSerializer.create`: try to create the user then the profile;
on any exception run the cleanup branch, which first evaluates the local
`user`. -/
def userSerializer_create (store : Store) (v : ValidatedReg) (fail : CreateFail) :
    Except PyError User × Store :=
  let user0 : Option User := none
  if fail = CreateFail.atCreateUser then
    match user0 with
    | none => (Except.error (PyError.unboundLocalError "user"), store)
    | some u =>
        (Except.error (PyError.validationError "Failed to create user"), delete_user store u.id)
  else
    let us := create_user store v
    let user1 : Option User := some us.1
    if fail = CreateFail.atCreateProfile then
      match user1 with
      | none => (Except.error (PyError.unboundLocalError "user"), us.2)
      | some u =>
          (Except.error (PyError.validationError "Failed to create user"), delete_user us.2 u.id)
    else
      let ps := profile_create us.2 us.1.id v.profile
      (Except.ok us.1, ps.2)

/-! ## Login (`serializers.py` lines 225-266, `views.py` lines 88-146) -/

/-- Django's `authenticate` resolved through the configured backends.
Modelled from the spec: the authentication backend configuration
(`settings.py`) is not among the sources; per the spec's login procedure
the backend looks the account up by email and verifies the password,
and the explicit `is_active` checks that follow in the serializer and
the view are the only deactivation filter, so the modelled backend does
not itself reject inactive accounts. -/
def authenticate (store : Store) (email password : String) : Option User :=
  match store.users.find? (fun u => u.email == email) with
  | none => none
  | some u => if u.password == password then some u else none

/-- A login request body. -/
structure LoginPayload where
  email : Option String
  password : Option String
deriving Repr, DecidableEq

/-- The `email` field of `LoginSerializer`: a plain `EmailField` (trims,
rejects blank and malformed input; no uniqueness hook here). -/
def login_email_field_run (raw : String) : Except String String :=
  if pyStrip raw = "" then Except.error "This field may not be blank."
  else if !(email_format_ok (pyStrip raw)) then Except.error "Enter a valid email address."
  else Except.ok (pyStrip raw)

/-- The `password` field of `LoginSerializer`: a plain `CharField`. -/
def login_password_field_run (raw : String) : Except String String :=
  if pyStrip raw = "" then Except.error "This field may not be blank."
  else Except.ok (pyStrip raw)

/-- `LoginSerializer.validate` (lines 235-266): lowercase and strip the
email into a **local** variable, authenticate with it, reject a missing
user or an inactive one — but return the validated data with the `email`
entry unchanged (the normalization is never written back). -/
def loginSerializer_validate (store : Store) (email password : String) :
    Except (List String) (User × String × String) :=
  -- the Python local `email` is `pyStrip (pyLower email)`, written out below
  if pyStrip (pyLower email) = "" ∨ password = "" then
    Except.error ["Both email and password are required."]
  else
    match authenticate store (pyStrip (pyLower email)) password with
    | none => Except.error ["Invalid email or password."]
    | some u =>
        if !u.is_active then
          Except.error ["Your account has been deactivated. Please contact support."]
        else Except.ok (u, email, password)

/-- `LoginSerializer` `is_valid()`: field pipelines (errors aggregated by
field name), then the object-level `validate`, whose raised message lands
under `non_field_errors`. -/
def login_run_validation (store : Store) (p : LoginPayload) :
    Except ErrorMap (User × String × String) :=
  let emailRes : Except ErrDetail String :=
    match p.email with
    | none => Except.error (ErrDetail.msgs ["This field is required."])
    | some raw => exMapErr (fun m => ErrDetail.msgs [m]) (login_email_field_run raw)
  let pwRes : Except ErrDetail String :=
    match p.password with
    | none => Except.error (ErrDetail.msgs ["This field is required."])
    | some raw => exMapErr (fun m => ErrDetail.msgs [m]) (login_password_field_run raw)
  match emailRes, pwRes with
  | Except.ok e, Except.ok pw =>
      match loginSerializer_validate store e pw with
      | Except.error msgs => Except.error [("non_field_errors", ErrDetail.msgs msgs)]
      | Except.ok r => Except.ok r
  | _, _ => Except.error (errKey "email" emailRes ++ errKey "password" pwRes)

/-- Outcome of the login view. -/
inductive LoginResult where
  | success (u : User)
  | authFailed (error : String) (details : ErrorMap)
deriving Repr, DecidableEq

/-- `views.login` (lines 88-146): validate; on any serializer error
return the 400 response; otherwise authenticate **again** in the view
with `validated_data['email']` — the un-normalized value — and
`validated_data['password']`, with the view's own invalid-credential and
deactivated branches. -/
def login (store : Store) (payload : LoginPayload) : LoginResult :=
  match login_run_validation store payload with
  | Except.error m => LoginResult.authFailed "Authentication failed" m
  | Except.ok r =>
      match authenticate store r.2.1 r.2.2 with
      | none =>
          LoginResult.authFailed "Authentication failed"
            [("non_field_errors", ErrDetail.msgs ["Invalid email or password."])]
      | some u =>
          if !u.is_active then
            LoginResult.authFailed "Authentication failed"
              [("non_field_errors",
                ErrDetail.msgs ["Your account has been deactivated. Please contact support."])]
          else LoginResult.success u

/-- The spec's phone character set `[0-9 ()+-]`, defined from the spec's
words (digits, the space character, parentheses, plus, minus) to compare
with the code's `phoneCharOk`, whose `\s` admits every whitespace
character. -/
def specPhoneCharOk (c : Char) : Bool :=
  c.isDigit || c = ' ' || c = '(' || c = ')' || c = '+' || c = '-'

/-! ## Concrete inputs used by the counterexamples and witnesses -/

/-- A registered, active account. -/
def demoUser : User :=
  { id := 1, email := "a@b.com", username := "abc", password := "secretpw1"
    is_active := true, is_staff := false, is_verified := false }

/-- A store holding just `demoUser`. -/
def demoStore : Store := { users := [demoUser], profiles := [] }

/-- The same account, deactivated. -/
def demoInactiveUser : User :=
  { demoUser with is_active := false }

/-- A store holding just the deactivated account. -/
def demoInactiveStore : Store := { users := [demoInactiveUser], profiles := [] }

/-- A stored profile whose phone number is `"555-123-4567"`. -/
def demoProfile : Profile :=
  { user_id := 1, phone_number := "555-123-4567", role := "student" }

/-- A store holding just `demoProfile`. -/
def demoPhoneStore : Store := { users := [], profiles := [demoProfile] }

/-- A fully valid registration payload that also tries to set
`is_active := false` and `is_verified := true` itself. -/
def flagPayload : RegPayload :=
  { email := some "new@example.com", username := some "newuser"
    password := some "longenough1", password_confirm := some "longenough1"
    is_active := some false, is_verified := some true
    profile := some { phone_number := some "5551234567", role := some "student" } }

/-- The `validated_data` the registration serializer produces from
`flagPayload`. -/
def flagValidated : ValidatedReg :=
  { email := "new@example.com", username := "newuser", password := "longenough1"
    password_confirm := none, is_active := some false
    profile := { phone_number := "5551234567", role := some "student" } }

/-- The account `register` creates from `flagPayload`. -/
def flagUser : User :=
  { id := 1, email := "new@example.com", username := "newuser", password := "longenough1"
    is_active := false, is_staff := false, is_verified := false }

/-- The profile `register` creates from `flagPayload`. -/
def flagProfile : Profile :=
  { user_id := 1, phone_number := "5551234567", role := "student" }

/-- The store after registering `flagPayload` on an empty store. -/
def flagStore : Store := { users := [flagUser], profiles := [flagProfile] }

/-- A payload whose username is too short **and** whose passwords do not
match, everything else valid. -/
def mixedBadPayload : RegPayload :=
  { email := some "ok@example.com", username := some "ab"
    password := some "longenough1", password_confirm := some "different11"
    is_active := none, is_verified := none
    profile := some { phone_number := some "5551234567", role := some "student" } }

/-- A payload with two bad fields — a too-short username and a too-short
phone number — and matching passwords. -/
def twoFieldBadPayload : RegPayload :=
  { email := some "ok@example.com", username := some "ab"
    password := some "longenough1", password_confirm := some "longenough1"
    is_active := none, is_verified := none
    profile := some { phone_number := some "123", role := some "student" } }

/-- A fully valid payload whose phone number is 17 characters long while
using only allowed characters and 11 digits. -/
def longPhonePayload : RegPayload :=
  { email := some "c@example.com", username := some "cuser"
    password := some "longenough1", password_confirm := some "longenough1"
    is_active := none, is_verified := none
    profile := some { phone_number := some "+1 (555) 123-4567", role := some "student" } }

/-! ## Helper lemmas -/

/-- Dropping a prefix never lengthens a list. -/
lemma length_dropWhile_le {a : Type} (p : a → Bool) (l : List a) :
    (l.dropWhile p).length ≤ l.length :=
  (List.dropWhile_suffix p).sublist.length_le

/-- Stripping never lengthens a string. -/
lemma pyStrip_length_le (s : String) : (pyStrip s).length ≤ s.length := by
  show (((s.data.dropWhile pyIsSpace).reverse.dropWhile pyIsSpace).reverse).length ≤ s.data.length
  rw [List.length_reverse]
  calc ((s.data.dropWhile pyIsSpace).reverse.dropWhile pyIsSpace).length
      ≤ (s.data.dropWhile pyIsSpace).reverse.length := length_dropWhile_le _ _
    _ = (s.data.dropWhile pyIsSpace).length := List.length_reverse _
    _ ≤ s.data.length := length_dropWhile_le _ _

/-- A phone number `validate_phone_number` accepts is returned stripped. -/
lemma validate_phone_ok_eq {store : Store} {v r : String}
    (h : validate_phone_number store v = Except.ok r) : r = pyStrip v := by
  unfold validate_phone_number at h
  split_ifs at h
  all_goals first
    | exact Except.noConfusion h
    | (injection h with h2; exact h2.symm)

/-- Everything the success branch of `validate_phone_number` checked. -/
lemma validate_phone_ok_inv {store : Store} {raw r : String}
    (h : validate_phone_number store raw = Except.ok r) :
    pyStrip raw ≠ "" ∧ (pyStrip raw).data.all phoneCharOk = true
    ∧ 10 ≤ (digitsOnly (pyStrip raw)).length
    ∧ store.profiles.all (fun p => p.phone_number != pyStrip raw) = true := by
  unfold validate_phone_number at h
  split_ifs at h with h1 h2 h3 h4
  have hb : phoneRegexMatch (pyStrip raw) = true := by
    cases hx : phoneRegexMatch (pyStrip raw) with
    | true => rfl
    | false => rw [hx] at h2; exact absurd rfl h2
  unfold phoneRegexMatch at hb
  rw [Bool.and_eq_true] at hb
  refine ⟨by simpa using hb.1, hb.2, by omega, ?_⟩
  have hany : store.profiles.any (fun p => p.phone_number == pyStrip raw) = false := by
    cases hb : store.profiles.any (fun p => p.phone_number == pyStrip raw) with
    | true => exact absurd hb h4
    | false => rfl
  rw [List.any_eq_false] at hany
  rw [List.all_eq_true]
  intro x hx
  simpa using hany x hx

/-- `is_active` passes through `to_internal_value` untouched. -/
lemma user_to_internal_is_active {store : Store} {p : RegPayload} {v : ValidatedReg}
    (h : user_to_internal store p = Except.ok v) : v.is_active = p.is_active := by
  simp only [user_to_internal] at h
  split at h
  · cases h; rfl
  · exact absurd h (by simp)

/-- `is_active` passes through the object-level `validate` untouched. -/
lemma user_validate_is_active {v w : ValidatedReg}
    (h : user_validate v = Except.ok w) : w.is_active = v.is_active := by
  unfold user_validate at h
  split at h
  all_goals try split_ifs at h
  all_goals first
    | exact Except.noConfusion h
    | (injection h with h2; rw [← h2])

/-- `is_active` passes through the whole registration validation. -/
lemma user_run_validation_is_active {store : Store} {p : RegPayload} {v : ValidatedReg}
    (h : user_run_validation store p = Except.ok v) : v.is_active = p.is_active := by
  unfold user_run_validation at h
  cases hti : user_to_internal store p <;> rw [hti] at h
  · exact Except.noConfusion h
  · rw [user_validate_is_active h, user_to_internal_is_active hti]

/-! ## Claims -/

/-- C1: registration is atomic.  Whatever step of the creation block
fails — `create_user`, `Profile.objects.create`, or token generation —
the `transaction.atomic()` wrapper rolls the store back, so the store
after the request equals the store before it: no Account row and no
Profile row is left behind.  And when registration succeeds, exactly the
Account and its Profile are added together. -/
theorem register_atomic (store : Store) (payload : RegPayload) (fail : CreateFail) :
    (fail ≠ CreateFail.noFail → (register store payload fail).2 = store) ∧
    (∀ u p s, register store payload fail = (RegResult.created u p, s) →
      s.users = store.users ++ [u] ∧ s.profiles = store.profiles ++ [p]) := by
  constructor
  · intro hf
    unfold register
    cases hrv : user_run_validation store payload with
    | error m => rfl
    | ok v =>
        unfold register_block
        cases fail with
        | noFail => exact absurd rfl hf
        | atCreateUser => rfl
        | atCreateProfile => rfl
        | atTokens => rfl
  · intro u p s h
    unfold register at h
    cases hrv : user_run_validation store payload <;> rw [hrv] at h
    · exact absurd (congrArg Prod.fst h) (by simp)
    · unfold register_block at h
      cases fail with
      | noFail =>
          simp [create_user, profile_create] at h
          obtain ⟨⟨hu, hp⟩, hs⟩ := h
          subst hs
          constructor
          · rw [← hu]
          · rw [← hp]
      | atCreateUser => simp at h
      | atCreateProfile => simp at h
      | atTokens => simp at h

/-- C1 witness: a failure at profile creation leaves the store
untouched. -/
theorem register_atomic_witness :
    (register demoStore flagPayload CreateFail.atCreateProfile).2 = demoStore :=
  (register_atomic demoStore flagPayload CreateFail.atCreateProfile).1 (by decide)

/-- C9: in `UserSerializer.create`, when `User.objects.create_user`
itself raises, the cleanup branch evaluates the local `user` before any
assignment to it has occurred, so the error path surfaces an
unbound-variable error rather than the intended `ValidationError`. -/
theorem create_error_path_unbound (store : Store) (v : ValidatedReg) :
    (userSerializer_create store v CreateFail.atCreateUser).1
      = Except.error (PyError.unboundLocalError "user") ∧
    ∀ m, (userSerializer_create store v CreateFail.atCreateUser).1
      ≠ Except.error (PyError.validationError m) := by
  refine ⟨rfl, fun m hm => ?_⟩
  rw [show (userSerializer_create store v CreateFail.atCreateUser).1
      = Except.error (PyError.unboundLocalError "user") from rfl] at hm
  injection hm with hm2
  exact PyError.noConfusion hm2

/-- C9 witness at a concrete validated payload and store. -/
theorem create_error_path_unbound_witness :
    (userSerializer_create emptyStore flagValidated CreateFail.atCreateUser).1
      = Except.error (PyError.unboundLocalError "user") :=
  (create_error_path_unbound emptyStore flagValidated).1

/-- C4 counterexample: `is_active` is a writable serializer field, so a
registration payload carrying `is_active = false` creates an account
with `is_active = false` — refuting the claim that every created
account starts with `is_active = true` even for payloads that attempt
to set the flags themselves. -/
theorem register_is_active_payload_controlled :
    (register emptyStore flagPayload CreateFail.noFail).1
      = RegResult.created flagUser flagProfile
    ∧ flagPayload.is_active = some false
    ∧ flagUser.is_active = false := ⟨rfl, rfl, rfl⟩

/-- C4 amended: every account created through registration starts with
`is_verified = false` (the field is read-only, so payload attempts are
dropped), but `is_active` is writable: the created account's flag is the
payload's value when supplied and the default `true` only when the
payload omits it. -/
theorem register_created_flags (store : Store) (payload : RegPayload)
    (fail : CreateFail) (u : User) (p : Profile) (s : Store)
    (h : register store payload fail = (RegResult.created u p, s)) :
    u.is_verified = false ∧ u.is_active = payload.is_active.getD true := by
  unfold register at h
  cases hrv : user_run_validation store payload <;> rw [hrv] at h
  · exact absurd (congrArg Prod.fst h) (by simp)
  · unfold register_block at h
    cases fail with
    | noFail =>
        simp [create_user, profile_create] at h
        have hu := h.1.1
        have hia := user_run_validation_is_active hrv
        constructor
        · rw [← hu]
        · rw [← hu]
          show (ValidatedReg.is_active _).getD true = _
          rw [hia]
    | atCreateUser => simp at h
    | atCreateProfile => simp at h
    | atTokens => simp at h

/-- C4 amended, witness at the concrete payload. -/
theorem register_created_flags_witness :
    flagUser.is_verified = false ∧ flagUser.is_active = flagPayload.is_active.getD true :=
  register_created_flags emptyStore flagPayload CreateFail.noFail flagUser flagProfile
    flagStore rfl

/-- C6 counterexample: a payload whose username is too short **and**
whose passwords do not match reports only the username field error; the
`password_confirm` mismatch is absent from the response because the
object-level `validate` never ran. -/
theorem register_mismatch_masked_by_field_error :
    (register emptyStore mixedBadPayload CreateFail.noFail).1
      = RegResult.validationFailed "Validation failed"
          [("username", ErrDetail.msgs ["Username must be at least 3 characters long."])]
    ∧ mixedBadPayload.password ≠ mixedBadPayload.password_confirm := ⟨rfl, by decide⟩

/-- C6 amended: registration aggregates all **field-level** errors found
in one pass into one structured object keyed by field name, with nested
`profile.*` keys, and returns exactly that map; the cross-field
password/password-confirm check runs only after every field-level check
passed, so it is never reported together with a field-level error.  The
second part shows a payload with a bad username and a bad nested phone
number reporting both at once. -/
theorem register_aggregates_field_errors :
    (∀ (store : Store) (payload : RegPayload) (m : ErrorMap) (fail : CreateFail),
        user_to_internal store payload = Except.error m →
        (register store payload fail).1 = RegResult.validationFailed "Validation failed" m)
    ∧ user_to_internal emptyStore twoFieldBadPayload
        = Except.error
            [("username", ErrDetail.msgs ["Username must be at least 3 characters long."]),
             ("profile", ErrDetail.nested
                [("phone_number", ["Phone number must contain at least 10 digits."])])] := by
  constructor
  · intro store payload m fail h
    unfold register user_run_validation
    rw [h]
  · rfl

/-- C6 amended, witness: the two-field payload's aggregated error map is
what the register view returns. -/
theorem register_aggregates_field_errors_witness :
    (register emptyStore twoFieldBadPayload CreateFail.noFail).1
      = RegResult.validationFailed "Validation failed"
          [("username", ErrDetail.msgs ["Username must be at least 3 characters long."]),
           ("profile", ErrDetail.nested
              [("phone_number", ["Phone number must contain at least 10 digits."])])] :=
  register_aggregates_field_errors.1 emptyStore twoFieldBadPayload _ CreateFail.noFail rfl

/-- C7 counterexample: `"555-123-4567"` is accepted into an empty store,
and with it stored, `"5551234567"` — the same digit sequence in
different formatting — is accepted as well: phone numbers are not
canonicalized to a digit string, and exact-string uniqueness does not
exclude reformatted duplicates. -/
theorem phone_same_digits_both_accepted :
    validate_phone_number emptyStore "555-123-4567" = Except.ok "555-123-4567"
    ∧ validate_phone_number demoPhoneStore "5551234567" = Except.ok "5551234567"
    ∧ digitsOnly "555-123-4567" = digitsOnly "5551234567" := ⟨rfl, rfl, rfl⟩

/-- C7 amended: the "canonical" stored form of a phone number is just the
trimmed input string, and the uniqueness the validator enforces is on
that exact string: an accepted number equals the stripped input and
differs as a string from every stored number. -/
theorem phone_uniqueness_exact_string (store : Store) (raw r : String)
    (h : validate_phone_number store raw = Except.ok r) :
    r = pyStrip raw ∧ store.profiles.all (fun p => p.phone_number != r) = true := by
  refine ⟨validate_phone_ok_eq h, ?_⟩
  rw [validate_phone_ok_eq h]
  exact (validate_phone_ok_inv h).2.2.2

/-- C7 amended, witness. -/
theorem phone_uniqueness_exact_string_witness :
    ("555-123-4567" : String) = pyStrip "555-123-4567"
    ∧ emptyStore.profiles.all (fun p => p.phone_number != "555-123-4567") = true :=
  phone_uniqueness_exact_string emptyStore "555-123-4567" "555-123-4567" rfl

/-- C8 counterexample: `validate_phone_number` accepts
`"12345\t67890"`, whose tab character is **not** in the claimed charset
`[0-9 ()+-]` — the code's regex class `\s` admits every whitespace
character, not just the space. -/
theorem phone_charset_admits_tab :
    validate_phone_number emptyStore "12345\t67890" = Except.ok "12345\t67890"
    ∧ (("12345\t67890" : String).data.all specPhoneCharOk) = false := ⟨rfl, rfl⟩

/-- C8 amended: `validate_phone_number` accepts a raw string and returns
it trimmed exactly when, after trimming, it is nonempty, consists solely
of digits, whitespace characters, dashes, parentheses and plus signs,
contains at least 10 digits, and no stored profile already has that
exact trimmed string. -/
theorem validate_phone_number_characterization (store : Store) (raw : String) :
    validate_phone_number store raw = Except.ok (pyStrip raw)
    ↔ (pyStrip raw ≠ "" ∧ (pyStrip raw).data.all phoneCharOk = true
        ∧ 10 ≤ (digitsOnly (pyStrip raw)).length
        ∧ store.profiles.all (fun p => p.phone_number != pyStrip raw) = true) := by
  constructor
  · exact validate_phone_ok_inv
  · rintro ⟨h1, h2, h3, h4⟩
    have hraw : raw ≠ "" := by
      intro he
      exact h1 (by rw [he]; rfl)
    have hre : phoneRegexMatch (pyStrip raw) = true := by
      unfold phoneRegexMatch
      rw [Bool.and_eq_true]
      exact ⟨by simpa using h1, h2⟩
    have hany : store.profiles.any (fun p => p.phone_number == pyStrip raw) = false := by
      rw [List.any_eq_false]
      intro x hx
      have := List.all_eq_true.mp h4 x hx
      simpa using this
    unfold validate_phone_number
    rw [if_neg hraw, if_neg (by rw [hre]; simp), if_neg (by omega), if_neg (by rw [hany]; simp)]

/-- C8 amended, witness. -/
theorem validate_phone_number_characterization_witness :
    validate_phone_number emptyStore "5551234567" = Except.ok (pyStrip "5551234567") :=
  (validate_phone_number_characterization emptyStore "5551234567").mpr
    ⟨by decide, by decide, by decide, by decide⟩

/-- C10 counterexample: the 17-character phone number
`"+1 (555) 123-4567"` is indeed accepted by the `validate_phone_number`
method in isolation, but the serializer's field pipeline — whose
`max_length=15` is inherited from the `Profile.phone_number` column —
rejects it before that method runs, so registration fails at
**validation** time with a field error, never reaching creation. -/
theorem long_phone_rejected_at_validation :
    validate_phone_number emptyStore "+1 (555) 123-4567" = Except.ok "+1 (555) 123-4567"
    ∧ phone_field_run emptyStore "+1 (555) 123-4567"
        = Except.error "Ensure this field has no more than 15 characters."
    ∧ (register emptyStore longPhonePayload CreateFail.noFail).1
        = RegResult.validationFailed "Validation failed"
            [("profile", ErrDetail.nested
               [("phone_number", ["Ensure this field has no more than 15 characters."])])] :=
  ⟨rfl, rfl, rfl⟩

/-- C10 amended: any phone number the full field pipeline accepts is at
most 15 characters long, so it fits the `Profile.phone_number` column —
no payload can pass validation and then overflow the column at creation
time. -/
theorem validated_phone_fits_column (store : Store) (raw r : String)
    (h : phone_field_run store raw = Except.ok r) : r.length ≤ 15 := by
  unfold phone_field_run at h
  split_ifs at h with h1 h2
  have hr := validate_phone_ok_eq h
  have hle := pyStrip_length_le (pyStrip raw)
  rw [hr]
  omega

/-- C10 amended, witness. -/
theorem validated_phone_fits_column_witness :
    ("5551234567" : String).length ≤ 15 :=
  validated_phone_fits_column emptyStore "5551234567" "5551234567" rfl

/-- Evaluation of the login view when the serializer's object-level
`validate` raises: the view returns the 400 response carrying that
message under `non_field_errors`. -/
lemma login_eval_of_validate_error (store : Store) (e p : String) (msgs : List String)
    (hf : login_email_field_run e = Except.ok (pyStrip e))
    (hg : login_password_field_run p = Except.ok (pyStrip p))
    (hser : loginSerializer_validate store (pyStrip e) (pyStrip p) = Except.error msgs) :
    login store { email := some e, password := some p }
      = LoginResult.authFailed "Authentication failed"
          [("non_field_errors", ErrDetail.msgs msgs)] := by
  unfold login login_run_validation
  simp only [hf, hg, exMapErr, hser]

/-- C2: a login with the wrong password for an existing account and a
login with an email no account has return the same result: the same
"Authentication failed" error with the same
`non_field_errors: Invalid email or password.` detail — the response
does not reveal whether the email exists. -/
theorem login_error_indistinguishable (store : Store) (e1 p1 e2 p2 : String)
    (hf1 : login_email_field_run e1 = Except.ok (pyStrip e1))
    (hg1 : login_password_field_run p1 = Except.ok (pyStrip p1))
    (hf2 : login_email_field_run e2 = Except.ok (pyStrip e2))
    (hg2 : login_password_field_run p2 = Except.ok (pyStrip p2))
    (hne1 : pyStrip (pyLower (pyStrip e1)) ≠ "")
    (hne2 : pyStrip (pyLower (pyStrip e2)) ≠ "")
    (hq1 : pyStrip p1 ≠ "")
    (hq2 : pyStrip p2 ≠ "")
    (hu : ∃ u, store.users.find? (fun x => x.email == pyStrip (pyLower (pyStrip e1))) = some u
          ∧ (u.password == pyStrip p1) = false)
    (hn : store.users.find? (fun x => x.email == pyStrip (pyLower (pyStrip e2))) = none) :
    login store { email := some e1, password := some p1 }
      = login store { email := some e2, password := some p2 }
    ∧ login store { email := some e1, password := some p1 }
      = LoginResult.authFailed "Authentication failed"
          [("non_field_errors", ErrDetail.msgs ["Invalid email or password."])] := by
  obtain ⟨u, hu1, hu2⟩ := hu
  have hser1 : loginSerializer_validate store (pyStrip e1) (pyStrip p1)
      = Except.error ["Invalid email or password."] := by
    unfold loginSerializer_validate
    rw [if_neg (by simp [hne1, hq1])]
    unfold authenticate
    rw [hu1]
    simp [hu2]
  have hser2 : loginSerializer_validate store (pyStrip e2) (pyStrip p2)
      = Except.error ["Invalid email or password."] := by
    unfold loginSerializer_validate
    rw [if_neg (by simp [hne2, hq2])]
    unfold authenticate
    rw [hn]
  have l1 := login_eval_of_validate_error store e1 p1 _ hf1 hg1 hser1
  have l2 := login_eval_of_validate_error store e2 p2 _ hf2 hg2 hser2
  exact ⟨l1.trans l2.symm, l1⟩

/-- C2 witness: wrong password for the stored account versus an unknown
email on the demo store. -/
theorem login_error_indistinguishable_witness :
    login demoStore { email := some "a@b.com", password := some "wrongpass" }
      = login demoStore { email := some "z@b.com", password := some "whatever9" } :=
  (login_error_indistinguishable demoStore "a@b.com" "wrongpass" "z@b.com" "whatever9"
    rfl rfl rfl rfl (by decide) (by decide) (by decide) (by decide)
    ⟨demoUser, by decide, by decide⟩ (by decide)).1

/-- C3: when the email matches a stored account, the password matches its
stored credential, and the account's `is_active` flag is false, login
returns the distinct, revealable "account deactivated" error, not the
generic invalid-credentials one.  (Django's `authenticate` is modelled
from the spec here, because the backend configuration lives outside the
sources; see `authenticate`.) -/
theorem login_deactivated_distinct (store : Store) (e p : String) (u : User)
    (hf : login_email_field_run e = Except.ok (pyStrip e))
    (hg : login_password_field_run p = Except.ok (pyStrip p))
    (hne : pyStrip (pyLower (pyStrip e)) ≠ "")
    (hq : pyStrip p ≠ "")
    (hfind : store.users.find? (fun x => x.email == pyStrip (pyLower (pyStrip e))) = some u)
    (hpw : (u.password == pyStrip p) = true)
    (hinactive : u.is_active = false) :
    login store { email := some e, password := some p }
      = LoginResult.authFailed "Authentication failed"
          [("non_field_errors",
            ErrDetail.msgs ["Your account has been deactivated. Please contact support."])]
    ∧ login store { email := some e, password := some p }
      ≠ LoginResult.authFailed "Authentication failed"
          [("non_field_errors", ErrDetail.msgs ["Invalid email or password."])] := by
  have hser : loginSerializer_validate store (pyStrip e) (pyStrip p)
      = Except.error ["Your account has been deactivated. Please contact support."] := by
    unfold loginSerializer_validate
    rw [if_neg (by simp [hne, hq])]
    unfold authenticate
    rw [hfind]
    simp [hpw, hinactive]
  have l := login_eval_of_validate_error store e p _ hf hg hser
  refine ⟨l, ?_⟩
  rw [l]
  decide

/-- C3 witness: the deactivated demo account with the correct
password. -/
theorem login_deactivated_distinct_witness :
    login demoInactiveStore { email := some "a@b.com", password := some "secretpw1" }
      = LoginResult.authFailed "Authentication failed"
          [("non_field_errors",
            ErrDetail.msgs ["Your account has been deactivated. Please contact support."])] :=
  (login_deactivated_distinct demoInactiveStore "a@b.com" "secretpw1" demoInactiveUser
    rfl rfl (by decide) (by decide) (by decide) (by decide) (by decide)).1

/-- C5 (the claim fails on the code): the demo account is stored with
email `"a@b.com"` and password `"secretpw1"`; logging in with the case
variant `"A@b.com"` and the correct password is rejected with the
invalid-credentials error, while the exact-case email succeeds.
`LoginSerializer.validate` lowercases the email only into a local
variable and authenticates with it, but the view re-authenticates with
the un-normalized `validated_data` value, so the case variant fails the
lookup. -/
theorem login_case_variant_rejected :
    login demoStore { email := some "A@b.com", password := some "secretpw1" }
      = LoginResult.authFailed "Authentication failed"
          [("non_field_errors", ErrDetail.msgs ["Invalid email or password."])]
    ∧ login demoStore { email := some "a@b.com", password := some "secretpw1" }
      = LoginResult.success demoUser := ⟨rfl, rfl⟩

end Accounts
